import Mathlib

/-!
Verification of the `cobp` repository: shallow embedding of its stat value
objects, aggregation layer, Baseball-Reference cache/lookup and dashboard
entry points, with theorems settling the specification's claims.

Counts are embedded as `Nat` and derived ratios as `ℚ` (the Python floats
involved are exact on every value these claims touch: small integer sums,
quotients compared against themselves, and additions of two quotients).
Python dicts are embedded as association lists (`List (String × α)`) with
`List.lookup`; mappings built by the code are keyed uniquely, so
first-match lookup agrees with dict semantics.  External effects (the UI,
the browser scrape, the filesystem) are threaded as explicit inputs,
outputs and instrumentation counters.
-/

namespace Cobp

/-! ## Stat value objects -/

/-- Modelled from the spec: the OBP-family stat value object
(`cobp/stats/obp.py` is not under `src/`; only its tests are).
Running counts plus a derived ratio:
OBP = (hits + walks + hit-by-pitches) / (at-bats + walks + hit-by-pitches + sacrifice-flys),
0.0 when the denominator is 0.  The in-repo test
`tests/stats/test_obp.py::TestOBP` pins exactly this behavior. -/
structure OBP where
  hits : Nat := 0
  walks : Nat := 0
  hit_by_pitches : Nat := 0
  at_bats : Nat := 0
  sacrifice_flys : Nat := 0
deriving Repr, DecidableEq

def OBP.numerator (o : OBP) : Nat :=
  o.hits + o.walks + o.hit_by_pitches

def OBP.denominator (o : OBP) : Nat :=
  o.at_bats + o.walks + o.hit_by_pitches + o.sacrifice_flys

def OBP.value (o : OBP) : ℚ :=
  if o.denominator = 0 then 0 else (o.numerator : ℚ) / (o.denominator : ℚ)

/-- Modelled from the spec: the SP-family stat value object
(`cobp/stats/sp.py` is not under `src/`).
SP = (singles + 2·doubles + 3·triples + 4·home-runs) / at-bats, 0.0 when
at-bats is 0. -/
structure SP where
  singles : Nat := 0
  doubles : Nat := 0
  triples : Nat := 0
  home_runs : Nat := 0
  at_bats : Nat := 0
deriving Repr, DecidableEq

def SP.value (s : SP) : ℚ :=
  if s.at_bats = 0 then 0
  else ((s.singles + 2 * s.doubles + 3 * s.triples + 4 * s.home_runs : Nat) : ℚ) / (s.at_bats : ℚ)

/-- Modelled from the spec: BA = hits / at-bats, 0.0 when at-bats is 0
(`cobp/stats/ba.py` is not under `src/`). -/
structure BA where
  hits : Nat := 0
  at_bats : Nat := 0
deriving Repr, DecidableEq

def BA.value (b : BA) : ℚ :=
  if b.at_bats = 0 then 0 else (b.hits : ℚ) / (b.at_bats : ℚ)

/-- Modelled from the spec: basic per-player counts aggregated across games
(`cobp/stats/basic.py` is not under `src/`). -/
structure BasicStats where
  games : Nat := 0
  at_bats : Nat := 0
  hits : Nat := 0
  walks : Nat := 0
  hit_by_pitches : Nat := 0
  sacrifice_flys : Nat := 0
  singles : Nat := 0
  doubles : Nat := 0
  triples : Nat := 0
  home_runs : Nat := 0
deriving Repr, DecidableEq

/-- Modelled from the spec: season runs and RBIs from the secondary source
(`cobp/stats/runs.py` is not under `src/`). -/
structure Runs where
  runs : Nat := 0
  rbis : Nat := 0
deriving Repr, DecidableEq

/-! ## `cobp/stats/derived.py` — composite statistics

Each composite holds exactly its two operand stat objects and derives its
value as their sum on each query (`value` is a Python `@property`, embedded
as a function, so it is recomputed, never stored). -/

structure OPS where
  obp : OBP := {}
  sp : SP := {}
deriving Repr, DecidableEq

def OPS.value (o : OPS) : ℚ := o.obp.value + o.sp.value

structure COPS where
  cobp : OBP := {}
  csp : SP := {}
deriving Repr, DecidableEq

def COPS.value (c : COPS) : ℚ := c.cobp.value + c.csp.value

structure LOOPS where
  loop : OBP := {}
  lsp : SP := {}
deriving Repr, DecidableEq

def LOOPS.value (l : LOOPS) : ℚ := l.loop.value + l.lsp.value

structure SOPS where
  sobp : OBP := {}
  ssp : SP := {}
deriving Repr, DecidableEq

def SOPS.value (s : SOPS) : ℚ := s.sobp.value + s.ssp.value

/-! ## `cobp/stats/aggregated.py` — `PlayerStats` (generation B) -/

structure PlayerStats where
  obp : OBP
  cobp : OBP
  sobp : OBP
  loop : OBP
  sp : SP
  csp : SP
  lsp : SP
  ssp : SP
  ba : BA
  basic : BasicStats
  runs : Runs
deriving Repr, DecidableEq

def PlayerStats.ops (s : PlayerStats) : OPS := { obp := s.obp, sp := s.sp }

def PlayerStats.cops (s : PlayerStats) : COPS := { cobp := s.cobp, csp := s.csp }

def PlayerStats.loops (s : PlayerStats) : LOOPS := { loop := s.loop, lsp := s.lsp }

def PlayerStats.sops (s : PlayerStats) : SOPS := { sobp := s.sobp, ssp := s.ssp }

/-! ## Players and dict helpers -/

/-- Modelled from the spec: a roster player record, restricted to the two
fields the aggregation layer reads (id and display name); the full player
models (`pyretrosheet.models.player` / `baseball_obp_and_cobp/player.py`)
are not under `src/`. -/
structure Player where
  id : String
  name : String
deriving Repr, DecidableEq

/-- Modelled from the spec: the reserved synthetic team-player id
(`cobp/utils.py` / `baseball_obp_and_cobp/player.py` are not under `src/`):
a distinguished sentinel id, never conflated with a real roster id. -/
def TEAM_PLAYER_ID : String := "team"

/-- Modelled from the spec: the factory for the synthetic team
pseudo-player (`cobp/utils.py::build_team_player`, not under `src/`). -/
def build_team_player : Player :=
  { id := TEAM_PLAYER_ID, name := "Team" }

/-- Modelled from the spec: the Team record, restricted to the two fields
the aggregation layer reads (`cobp/models/team.py` is not under `src/`). -/
structure Team where
  retrosheet_id : String
  name : String
deriving Repr, DecidableEq

/-- Embeds Python's `mapping.get(key) or Default()` idiom: the stat
dataclass instances are always truthy, so the default is substituted
exactly when the key is absent. -/
def getOr (m : List (String × α)) (k : String) (d : α) : α :=
  (m.lookup k).getD d

/-- `dict.pop(key)` on the association-list embedding of a Python dict:
removes the key's entry (dict keys are unique; removing every occurrence
coincides on dict-derived lists). -/
def popKey {α : Type} : List (String × α) → String → List (String × α)
  | [], _ => []
  | e :: t, k => if e.1 = k then popKey t k else e :: popKey t k

/-! ## `cobp/stats/aggregated.py::get_player_to_stats` (generation B) -/

/-- The outputs of the individual per-statistic calculators consumed by
`get_player_to_stats` (the calculator modules themselves are not under
`src/`; their result mappings are taken here as arbitrary inputs). -/
structure CalculatorOutputs where
  player_to_obp : List (String × OBP)
  player_to_cobp : List (String × OBP)
  player_to_sobp : List (String × OBP)
  player_to_loop : List (String × OBP)
  player_to_ba : List (String × BA)
  player_to_sp : List (String × SP)
  player_to_csp : List (String × SP)
  player_to_lsp : List (String × SP)
  player_to_ssp : List (String × SP)
  player_to_basic_stats : List (String × BasicStats)
  player_to_runs : List (String × Runs)

/-- The `PlayerStats(...)` constructor call inside the dict comprehension of
`cobp/stats/aggregated.py::get_player_to_stats`: every field falls back to a
fresh zero-valued default when the calculator's mapping misses the id. -/
def mkPlayerStats (c : CalculatorOutputs) (pid : String) : PlayerStats :=
  { obp := getOr c.player_to_obp pid {}
    cobp := getOr c.player_to_cobp pid {}
    sobp := getOr c.player_to_sobp pid {}
    loop := getOr c.player_to_loop pid {}
    ba := getOr c.player_to_ba pid {}
    sp := getOr c.player_to_sp pid {}
    csp := getOr c.player_to_csp pid {}
    lsp := getOr c.player_to_lsp pid {}
    ssp := getOr c.player_to_ssp pid {}
    basic := getOr c.player_to_basic_stats pid {}
    runs := getOr c.player_to_runs pid {} }

/-- `cobp/stats/aggregated.py::get_player_to_stats` (generation B).
`players` stands for `get_team_players(games, team.retrosheet_id)` (an
external `pyretrosheet.views` helper); the dict comprehension over
`all_players = [build_team_player(), *players]` becomes a map over that
list. -/
def get_player_to_stats (players : List Player) (c : CalculatorOutputs) :
    List (String × PlayerStats) :=
  (build_team_player :: players).map fun p => (p.id, mkPlayerStats c p.id)

/-- An empty set of generation-B calculator outputs (a zero-play game
produces no per-player entries in any calculator's mapping). -/
def emptyCalcB : CalculatorOutputs :=
  ⟨[], [], [], [], [], [], [], [], [], [], []⟩

/-! ## `cobp/stats/aggregated.py::get_player_to_stats_df` (generation B)

The dataframe is embedded row-major: one ordered `(column, cell)` list per
player, in mapping order.  The source builds the same table column-major
through a `defaultdict(list)`; each iteration of its loop appends one cell
to every one of the 29 columns, in a fixed order, so the rows below carry
exactly the same cells and the column order is the order of first append. -/

inductive Cell where
  | str (s : String)
  | num (q : ℚ)
deriving Repr, DecidableEq

/-- One loop iteration of `get_player_to_stats_df`: the 29 columns appended
for one player, in source order.  Note the `ID` cell: the source appends
`player.name` there (`cobp/stats/aggregated.py:102`). -/
def rowCells (team : Team) (year : Nat) (player : Player) (stats : PlayerStats) :
    List (String × Cell) :=
  [("Team", .str team.name),
   ("Year", .num year),
   ("Player", .str player.name),
   ("ID", .str player.name),
   ("G", .num stats.basic.games),
   ("AB", .num stats.basic.at_bats),
   ("H", .num stats.basic.hits),
   ("W", .num stats.basic.walks),
   ("HBP", .num stats.basic.hit_by_pitches),
   ("SF", .num stats.basic.sacrifice_flys),
   ("S", .num stats.basic.singles),
   ("D", .num stats.basic.doubles),
   ("T", .num stats.basic.triples),
   ("HR", .num stats.basic.home_runs),
   ("R", .num stats.runs.runs),
   ("RBI", .num stats.runs.rbis),
   ("OBP", .num stats.obp.value),
   ("COBP", .num stats.cobp.value),
   ("LOOP", .num stats.loop.value),
   ("SOBP", .num stats.sobp.value),
   ("BA", .num stats.ba.value),
   ("SP", .num stats.sp.value),
   ("CSP", .num stats.csp.value),
   ("LSP", .num stats.lsp.value),
   ("SSP", .num stats.ssp.value),
   ("OPS", .num stats.ops.value),
   ("COPS", .num stats.cops.value),
   ("LOOPS", .num stats.loops.value),
   ("SOPS", .num stats.sops.value)]

/-- A placeholder for Python's `KeyError` on `player_id_to_player[player_id]`;
never reached when the stats mapping's keys come from the same roster, the
situation `get_player_to_stats` guarantees. -/
def keyErrorPlayer : Player := { id := "KeyError", name := "KeyError" }

/-- `cobp/stats/aggregated.py::get_player_to_stats_df`.  `players` stands
for `get_team_players(games, team.retrosheet_id)`. -/
def get_player_to_stats_df (players : List Player)
    (player_to_stats : List (String × PlayerStats)) (team : Team) (year : Nat) :
    List (List (String × Cell)) :=
  let all_players := build_team_player :: players
  let player_id_to_player := all_players.map fun p => (p.id, p)
  player_to_stats.map fun e =>
    rowCells team year ((player_id_to_player.lookup e.1).getD keyErrorPlayer) e.2

/-- The column labels of the generation-B flat table, read off a row. -/
def dfColumns (row : List (String × Cell)) : List String :=
  row.map Prod.fst

/-! ## `cobp/stats/aggregated.py::get_player_to_game_stat_df` (generation B)

Line 135 builds `players = [build_team_player(), get_team_players(...)]`
without unpacking the second element, so the dict comprehension on line 136
iterates over a two-element list whose second element is the roster *list*;
Python raises `AttributeError` when it evaluates `p.id` on it.  (Even if it
got further, `_get_game_to_player_stat` builds a set on line 151 and calls
`.items()` on it on line 153 — another `AttributeError`.)  The embedding
keeps just enough of Python's dynamic typing to express this: the list
elements are tagged values and attribute access is fallible. -/

inductive PyVal where
  | player (p : Player)
  | playerList (ps : List Player)
deriving Repr, DecidableEq

/-- Python attribute access `p.id` on an element of the heterogeneous
`players` list: it raises `AttributeError` on the un-unpacked roster
list. -/
def PyVal.idAttr : PyVal → Except String String
  | .player p => .ok p.id
  | .playerList _ => .error "AttributeError: list object has no attribute id"

/-- `cobp/stats/aggregated.py::get_player_to_game_stat_df`, evaluated up to
its second statement `player_id_to_player = {p.id: p for p in players}`;
the embedding propagates the first raised error, after which nothing else
in the function body (including `_get_game_to_player_stat`) is reached. -/
def get_player_to_game_stat_df (roster : List Player) :
    Except String (List (String × PyVal)) :=
  let players : List PyVal := [.player build_team_player, .playerList roster]
  players.mapM fun p => p.idAttr.map fun i => (i, p)

/-! ## `cobp/data/baseball_reference.py` -/

/-- One row of the seasonal-stats data: a `PlayerSeasonalStats` record as
scraped, or equivalently one CSV row of the cache file as read back. -/
structure PlayerSeasonalStats where
  player_name : String
  player_id : String
  baseball_reference_team_id : String
  rbis : Int
  runs : Int
deriving Repr, DecidableEq

/-- Python errors raised by `lookup_player`: the explicit `ValueError` of
`fuzzy_lookup`, or the `TypeError` from unpacking `None` when
`process.extractOne` finds no candidate at all. -/
inductive PyError where
  | valueError (msg : String)
  | typeError
deriving Repr, DecidableEq

/-- `fuzzywuzzy.process.extractOne`, modelled over an explicit similarity
scorer (the library is third-party, used unmodified at the boundary):
returns a best-scoring choice — the first maximal one in list order — or
`none` on an empty choice list. -/
def extractOne (score : String → Nat) (choices : List String) :
    Option (String × Nat) :=
  choices.foldl
    (fun acc c =>
      match acc with
      | none => some (c, score c)
      | some (b, s) => if score c > s then some (c, score c) else some (b, s))
    none

/-- The `ValueError` message of `fuzzy_lookup`, reporting the query name,
team id, best candidate and its score. -/
def fuzzyErrorMessage (player_name team_id result : String) (score : Nat) : String :=
  "Unable to perform a fuzzy lookup of player_name=" ++ player_name ++
    " | team_id=" ++ team_id ++ " | result=" ++ result ++
    " | score=" ++ toString score

/-- `lookup_player`'s inner `fuzzy_lookup`: accepts the best match at
similarity at least `threshold` (50 of 100), else raises `ValueError`
reporting the query, team, best candidate and score.  When `extractOne`
yields nothing (no candidates), the unpacking raises `TypeError`. -/
def fuzzy_lookup (scorer : String → String → Nat) (player_name team_id : String)
    (choices : List String) (threshold : Nat := 50) : Except PyError String :=
  match extractOne (scorer player_name) choices with
  | none => .error .typeError
  | some (result, score) =>
    if score ≥ threshold then .ok result
    else .error (.valueError (fuzzyErrorMessage player_name team_id result score))

/-- `cobp/data/baseball_reference.py::lookup_player`: filters the cached
rows to the given team, fuzzy-matches the target name against that team's
candidate names, and returns the team rows bearing the matched name. -/
def lookup_player (scorer : String → String → Nat)
    (df : List PlayerSeasonalStats) (player_name team_id : String) :
    Except PyError (List PlayerSeasonalStats) :=
  let team_players := df.filter fun r => r.baseball_reference_team_id == team_id
  match fuzzy_lookup scorer player_name team_id
    (team_players.map PlayerSeasonalStats.player_name) with
  | .error e => .error e
  | .ok player_name_match =>
    .ok (team_players.filter fun r => r.player_name == player_name_match)

/-- Modelled from the spec: the process-wide data directory root
(`cobp/paths.py::DATA_DIR` is not under `src/`). -/
def DATA_DIR : String := "data"

def _get_players_seasonal_stats_data_path (year : Nat) : String :=
  DATA_DIR ++ "/" ++ toString year ++ "/baseball_reference.csv"

/-- The filesystem fragment the cache touches: path → parsed CSV rows.
A write prepends, so a later write for the same path shadows the earlier
content, matching file overwrite. -/
structure FS where
  files : List (String × List PlayerSeasonalStats)
deriving Repr, DecidableEq

def FS.write (fs : FS) (path : String) (rows : List PlayerSeasonalStats) : FS :=
  ⟨(path, rows) :: fs.files⟩

/-- Instrumentation of the I/O a cache operation performs: `fetches` counts
browser scrapes of the secondary site, `fileReads` counts `read_csv`
calls. -/
structure CacheEffects where
  fetches : Nat
  fileReads : Nat
deriving Repr, DecidableEq

/-- `dump_players_seasonal_stats`: scrape the year's stats (the browser
round trip is the `fetch` input) and write them to the year's cache path. -/
def dump_players_seasonal_stats (fetch : Nat → List PlayerSeasonalStats)
    (fs : FS) (year : Nat) : FS :=
  fs.write (_get_players_seasonal_stats_data_path year) (fetch year)

/-- The body of `get_seasonal_players_stats` (without its `lru_cache`
wrapper): if the cache file exists its rows are returned as-is; otherwise a
scrape-and-write precedes the read. -/
def get_seasonal_players_stats_body (fetch : Nat → List PlayerSeasonalStats)
    (fs : FS) (year : Nat) :
    List PlayerSeasonalStats × FS × CacheEffects :=
  let path := _get_players_seasonal_stats_data_path year
  match fs.files.lookup path with
  | some rows => (rows, fs, ⟨0, 1⟩)
  | none =>
    let fs' := dump_players_seasonal_stats fetch fs year
    ((fs'.files.lookup path).getD [], fs', ⟨1, 1⟩)

/-- The `@lru_cache(maxsize=None)` memo table of
`get_seasonal_players_stats`, keyed by the year argument. -/
structure Memo where
  table : List (Nat × List PlayerSeasonalStats)
deriving Repr, DecidableEq

/-- `get_seasonal_players_stats` with its `@lru_cache(maxsize=None)`
wrapper: a memo hit returns the previously computed result and performs no
I/O at all; a miss runs the body and records its result. -/
def get_seasonal_players_stats (fetch : Nat → List PlayerSeasonalStats)
    (memo : Memo) (fs : FS) (year : Nat) :
    List PlayerSeasonalStats × Memo × FS × CacheEffects :=
  match memo.table.lookup year with
  | some rows => (rows, memo, fs, ⟨0, 0⟩)
  | none =>
    let r := get_seasonal_players_stats_body fetch fs year
    (r.1, ⟨(year, r.1) :: memo.table⟩, r.2.1, r.2.2)

/-! ## Generation A (`baseball_obp_and_cobp`) -/

namespace GenA

/-- Modelled from the spec: generation A's OBP stat object
(`baseball_obp_and_cobp/stats/obp.py` is not under `src/`): running counts,
the derived ratio exposed as attribute `obp`, and a per-"game,inning" table
of that inning's isolated sub-ratio (the source stores a sub-OBP object
there and the aggregation layer reads only its `.obp` value, so the table
holds that value directly). -/
structure OBP where
  hits : Nat := 0
  walks : Nat := 0
  hit_by_pitches : Nat := 0
  at_bats : Nat := 0
  sacrifice_flys : Nat := 0
  game_inning_to_obp : List (String × ℚ) := []
deriving Repr, DecidableEq

def OBP.obp (o : OBP) : ℚ :=
  if o.at_bats + o.walks + o.hit_by_pitches + o.sacrifice_flys = 0 then 0
  else ((o.hits + o.walks + o.hit_by_pitches : Nat) : ℚ) /
    ((o.at_bats + o.walks + o.hit_by_pitches + o.sacrifice_flys : Nat) : ℚ)

/-- Modelled from the spec: generation A's SP stat object
(`baseball_obp_and_cobp/stats/sp.py` is not under `src/`). -/
structure SP where
  singles : Nat := 0
  doubles : Nat := 0
  triples : Nat := 0
  home_runs : Nat := 0
  at_bats : Nat := 0
deriving Repr, DecidableEq

def SP.sp (s : SP) : ℚ :=
  if s.at_bats = 0 then 0
  else ((s.singles + 2 * s.doubles + 3 * s.triples + 4 * s.home_runs : Nat) : ℚ) / (s.at_bats : ℚ)

/-- Modelled from the spec: generation A's BA stat object
(`baseball_obp_and_cobp/stats/ba.py` is not under `src/`). -/
structure BA where
  hits : Nat := 0
  at_bats : Nat := 0
deriving Repr, DecidableEq

def BA.ba (b : BA) : ℚ :=
  if b.at_bats = 0 then 0 else (b.hits : ℚ) / (b.at_bats : ℚ)

/-- Modelled from the spec: generation A's OPS composite
(`baseball_obp_and_cobp/stats/ops.py` is not under `src/`): the pure sum of
its OBP and SP operands. -/
structure OPS where
  obp : OBP := {}
  sp : SP := {}
deriving Repr, DecidableEq

def OPS.ops (o : OPS) : ℚ := o.obp.obp + o.sp.sp

/-- Modelled from the spec: generation A's COPS composite
(`baseball_obp_and_cobp/stats/cops.py` is not under `src/`). -/
structure COPS where
  cobp : OBP := {}
  sp : SP := {}
deriving Repr, DecidableEq

def COPS.cops (c : COPS) : ℚ := c.cobp.obp + c.sp.sp

/-- `baseball_obp_and_cobp/stats/aggregated.py::PlayerStats` (generation A);
the `init=False` count fields assigned in `__post_init__` are embedded as
derived functions below. -/
structure PlayerStats where
  obp : OBP
  cobp : OBP
  sobp : OBP
  ba : BA
  sp : SP
  ops : OPS
  cops : COPS
deriving Repr, DecidableEq

def PlayerStats.at_bats (s : PlayerStats) : Nat := s.obp.at_bats

def PlayerStats.hits (s : PlayerStats) : Nat := s.obp.hits

def PlayerStats.walks (s : PlayerStats) : Nat := s.obp.walks

def PlayerStats.hit_by_pitches (s : PlayerStats) : Nat := s.obp.hit_by_pitches

def PlayerStats.sacrifice_flys (s : PlayerStats) : Nat := s.obp.sacrifice_flys

def PlayerStats.singles (s : PlayerStats) : Nat := s.sp.singles

def PlayerStats.doubles (s : PlayerStats) : Nat := s.sp.doubles

def PlayerStats.triples (s : PlayerStats) : Nat := s.sp.triples

def PlayerStats.home_runs (s : PlayerStats) : Nat := s.sp.home_runs

/-- The all-default generation-A `PlayerStats` record. -/
def defaultPlayerStats : PlayerStats :=
  ⟨{}, {}, {}, {}, {}, {}, {}⟩

/-- The calculator result mappings consumed by generation A's
`get_player_to_stats` (the calculator modules are not under `src/`). -/
structure CalculatorOutputs where
  player_to_obp : List (String × OBP)
  player_to_cobp : List (String × OBP)
  player_to_sobp : List (String × OBP)
  player_to_ba : List (String × BA)
  player_to_sp : List (String × SP)
  player_to_ops : List (String × OPS)
  player_to_cops : List (String × COPS)

/-- The `PlayerStats(...)` constructor call inside the dict comprehension of
generation A's `get_player_to_stats`, with the same lookup-or-default
fallbacks. -/
def mkPlayerStats (c : CalculatorOutputs) (pid : String) : PlayerStats :=
  { obp := getOr c.player_to_obp pid {}
    cobp := getOr c.player_to_cobp pid {}
    sobp := getOr c.player_to_sobp pid {}
    ba := getOr c.player_to_ba pid {}
    sp := getOr c.player_to_sp pid {}
    ops := getOr c.player_to_ops pid {}
    cops := getOr c.player_to_cops pid {} }

/-- Modelled from the spec: `Player.as_team()` — generation A's factory for
the synthetic team pseudo-player with the reserved `TEAM_PLAYER_ID`. -/
def as_team : Player := build_team_player

/-- `baseball_obp_and_cobp/stats/aggregated.py::get_player_to_stats`
(generation A). `players` stands for `get_players_in_games(games)`
(`baseball_obp_and_cobp/game.py` is not under `src/`). -/
def get_player_to_stats (players : List Player) (c : CalculatorOutputs) :
    List (String × PlayerStats) :=
  (as_team :: players).map fun p => (p.id, mkPlayerStats c p.id)

/-- A game, restricted to the composite id the aggregation layer reads
(`baseball_obp_and_cobp/game.py` is not under `src/`). -/
structure Game where
  id : String
deriving Repr, DecidableEq

/-- Modelled from the spec: the composite "game,inning" id builder
(`baseball_obp_and_cobp/game.py::get_games_inning_id`, not under `src/`). -/
def get_games_inning_id (g : Game) (inning : Nat) : String :=
  g.id ++ "," ++ toString inning

/-- `_get_all_players_id_to_player`: all players of the games keyed by id,
with the synthetic team player added under its reserved id when
`include_team` (the dict insertion becomes an append; the reserved id never
collides with a roster id). -/
def _get_all_players_id_to_player (players : List Player) (include_team : Bool) :
    List (String × Player) :=
  let m := players.map fun p => (p.id, p)
  if include_team then m ++ [(TEAM_PLAYER_ID, as_team)] else m

/-- The players generation A's breakdown iterates: the id→player items
without the team player, keeping only players with a nonzero at-bat count
(the `continue` on `at_bats == 0`).  Indexing `player_to_stats[player_id]`
presumes presence, which `get_player_to_stats` guarantees; the zero default
stands in for Python's `KeyError` and is itself skipped. -/
def includedEntries (players : List Player)
    (player_to_stats : List (String × PlayerStats)) : List (String × Player) :=
  (_get_all_players_id_to_player players false).filter fun e =>
    (getOr player_to_stats e.1 defaultPlayerStats).at_bats != 0

/-- `_get_inning_to_player_cobp`: one row per "game,inning" id over innings
1–9 of every game, one cell per included player, holding that inning's
sub-OBP value or an explicit missing marker (`none`).  The source writes
rows into a `defaultdict` inside a player-outer loop; with no included
player nothing is ever written, hence the empty guard. -/
def _get_inning_to_player_cobp (games : List Game) (players : List Player)
    (player_to_stats : List (String × PlayerStats)) :
    List (String × List (String × Option ℚ)) :=
  let included := includedEntries players player_to_stats
  if included.isEmpty then []
  else
    games.flatMap fun g =>
      (List.range' 1 9).map fun inning =>
        (get_games_inning_id g inning,
         included.map fun e =>
           (e.1,
            (getOr player_to_stats e.1 defaultPlayerStats).cobp.game_inning_to_obp.lookup
              (get_games_inning_id g inning)))

/-- One loop iteration of generation A's `get_player_to_stats_df`: the 17
columns appended for one player, in source order. -/
def rowCellsA (player : Player) (stats : PlayerStats) : List (String × Cell) :=
  [("Player", .str player.name),
   ("AB", .num stats.at_bats),
   ("H", .num stats.hits),
   ("W", .num stats.walks),
   ("HBP", .num stats.hit_by_pitches),
   ("SF", .num stats.sacrifice_flys),
   ("S", .num stats.singles),
   ("D", .num stats.doubles),
   ("T", .num stats.triples),
   ("HR", .num stats.home_runs),
   ("OBP", .num stats.obp.obp),
   ("COBP", .num stats.cobp.obp),
   ("SOBP", .num stats.sobp.obp),
   ("BA", .num stats.ba.ba),
   ("SP", .num stats.sp.sp),
   ("OPS", .num stats.ops.ops),
   ("COPS", .num stats.cops.cops)]

/-- `baseball_obp_and_cobp/stats/aggregated.py::get_player_to_stats_df`
(generation A): one row per entry of the stats mapping, no filtering. -/
def get_player_to_stats_df (players : List Player)
    (player_to_stats : List (String × PlayerStats)) :
    List (List (String × Cell)) :=
  let player_id_to_player := _get_all_players_id_to_player players true
  player_to_stats.map fun e =>
    rowCellsA ((player_id_to_player.lookup e.1).getD keyErrorPlayer) e.2

/-- `baseball_obp_and_cobp/ui/stats.py::_display_stats`: renders the team
summary row from `player_to_stats[TEAM_PLAYER_ID]`, then executes
`player_to_stats.pop(TEAM_PLAYER_ID)` — mutating the caller's dict — and
renders the remaining players.  Rendering does not touch the mapping, so
the embedding returns the mapping's post-state. -/
def _display_stats (player_to_stats : List (String × PlayerStats)) :
    List (String × PlayerStats) :=
  popKey player_to_stats TEAM_PLAYER_ID

/-- `baseball_obp_and_cobp/ui/stats.py::display_game` forwards the mapping
to `_display_stats`; the mapping's post-state is the same. -/
def display_game (player_to_stats : List (String × PlayerStats)) :
    List (String × PlayerStats) :=
  _display_stats player_to_stats

/-- The game dropdown's outcome: the explicit "entire season" pseudo-option
or a single game. -/
inductive GameSelection where
  | entireSeason
  | game (g : Game)
deriving Repr, DecidableEq

/-- What the generation-A dashboard did in one run of `main`: returned with
nothing rendered, displayed an inline error banner and nothing further, or
computed and rendered stats for the resolved games. -/
inductive MainResult where
  | aborted
  | errorDisplayed (message : String)
  | rendered (games : List Game)
deriving Repr, DecidableEq

/-- `baseball_obp_and_cobp/__main__.py::_load_games`: wraps the parser call
(whose outcome, success or `InvalidInput`/`ValueError`, is the input);
on error it displays the message inline and returns `None`.  First
component: the return value; second: the banner displayed, if any. -/
def _load_games (load_result : Except String (List Game)) :
    Option (List Game) × Option String :=
  match load_result with
  | .ok gs => (some gs, none)
  | .error e => (none, some e)

/-- `baseball_obp_and_cobp/__main__.py::main`: the selector outcomes and
the parser outcome are inputs (they come from the UI and the filesystem).
`if not team or not year`, `if not all_games` (`None` or the empty list)
and `if not game_` each return early; a load error has already displayed
its banner inside `_load_games`. -/
def main (team : Option String) (year : Option Nat)
    (load_result : Except String (List Game))
    (game_selection : Option GameSelection) : MainResult :=
  match team, year with
  | some _, some _ =>
    match _load_games load_result with
    | (some gs, _) =>
      if gs.isEmpty then .aborted
      else
        match game_selection with
        | none => .aborted
        | some .entireSeason => .rendered gs
        | some (.game g) => .rendered [g]
    | (none, some e) => .errorDisplayed e
    | (none, none) => .aborted
  | _, _ => .aborted

end GenA

/-- An empty set of generation-A calculator outputs. -/
def emptyCalcA : GenA.CalculatorOutputs :=
  ⟨[], [], [], [], [], [], []⟩

/-- A fixed candidate row for exercising the fuzzy lookup. -/
def sampleRow : PlayerSeasonalStats :=
  { player_name := "Clint Frazier", player_id := "frazicl01",
    baseball_reference_team_id := "NYY", rbis := 10, runs := 20 }

def sampleDf : List PlayerSeasonalStats := [sampleRow]

/-- A generation-A stats mapping carrying the team entry and one roster
player, for exercising the display mutation. -/
def sampleMapA : List (String × GenA.PlayerStats) :=
  [(TEAM_PLAYER_ID, GenA.defaultPlayerStats), ("p1", GenA.defaultPlayerStats)]

/-- A generation-A stats record with one at-bat. -/
def oneABStats : GenA.PlayerStats :=
  ⟨{ at_bats := 1 }, {}, {}, {}, {}, {}, {}⟩

/-- A roster exercising the generation-B flat table on a player whose
display name differs from their id. -/
def abramsRoster : List Player :=
  [{ id := "abramcj01", name := "CJ Abrams" }]

def abramsStats : List (String × PlayerStats) :=
  get_player_to_stats abramsRoster emptyCalcB

def teamWAS : Team := { retrosheet_id := "WAS", name := "Nationals" }

/-! ## Helper lemmas -/

/-- Looking a key up in an association list whose entries are built as
`(p.id, f p.id)` yields `f k` exactly when `k` occurs among the ids. -/
theorem lookup_map_by_id {α : Type} (f : String → α) (k : String)
    (l : List Player) :
    (l.map fun p => (p.id, f p.id)).lookup k =
      if k ∈ l.map Player.id then some (f k) else none := by
  induction l with
  | nil => simp
  | cons p t ih =>
    by_cases h : k = p.id
    · subst h
      simp [List.lookup]
    · have hb : (k == p.id) = false := beq_false_of_ne h
      simp [List.lookup, hb, ih, List.mem_cons, h]

theorem lookup_popKey_self {α : Type} (m : List (String × α)) (k : String) :
    (popKey m k).lookup k = none := by
  induction m with
  | nil => rfl
  | cons e t ih =>
    by_cases h : e.1 = k
    · simpa [popKey, h] using ih
    · have hb : (k == e.1) = false := beq_false_of_ne fun hk => h hk.symm
      simpa [popKey, h, List.lookup, hb] using ih

theorem lookup_popKey_ne {α : Type} (m : List (String × α)) (k k' : String)
    (h : k' ≠ k) : (popKey m k).lookup k' = m.lookup k' := by
  induction m with
  | nil => rfl
  | cons e t ih =>
    by_cases he : e.1 = k
    · have hb : (k' == k) = false := beq_false_of_ne h
      simpa [popKey, he, List.lookup, hb] using ih
    · by_cases he' : k' = e.1
      · simp [popKey, he, List.lookup, he']
      · have hb : (k' == e.1) = false := beq_false_of_ne he'
        simpa [popKey, he, List.lookup, hb] using ih

/-! ## Claims -/

/-- C1: For every OBP-family stat value object, the derived ratio equals
(hits + walks + hit-by-pitches) / (at-bats + walks + hit-by-pitches +
sacrifice-flys); whenever that denominator is 0 the ratio is exactly 0
rather than an error or undefined value; and hits=1, walks=1,
hit-by-pitches=1, at-bats=1, sacrifice-flys=1 yields 0.75. -/
theorem C1_obp_ratio :
    (∀ o : OBP, o.denominator ≠ 0 →
      o.value = ((o.hits + o.walks + o.hit_by_pitches : Nat) : ℚ) /
        ((o.at_bats + o.walks + o.hit_by_pitches + o.sacrifice_flys : Nat) : ℚ)) ∧
    (∀ o : OBP, o.denominator = 0 → o.value = 0) ∧
    OBP.value
      { hits := 1, walks := 1, hit_by_pitches := 1, at_bats := 1,
        sacrifice_flys := 1 } = 3 / 4 := by
  refine ⟨fun o h => ?_, fun o h => ?_, ?_⟩
  · rw [OBP.value, if_neg h]; rfl
  · simp [OBP.value, h]
  · norm_num [OBP.value, OBP.numerator, OBP.denominator]

/-- Witness for C1 at the test inputs of `tests/stats/test_obp.py::TestOBP`. -/
theorem C1_obp_ratio_witness :
    OBP.value
      { hits := 1, walks := 1, hit_by_pitches := 1, at_bats := 1,
        sacrifice_flys := 1 } = ((3 : Nat) : ℚ) / ((4 : Nat) : ℚ) ∧
    OBP.value {} = 0 :=
  ⟨C1_obp_ratio.1 _ (by decide), C1_obp_ratio.2.1 {} (by decide)⟩

/-- C2: each composite statistic's value equals the exact sum of its two
named operands — OPS = OBP + SP, COPS = COBP + CSP, LOOPS = LOOP + LSP,
SOPS = SOBP + SSP — for every pair of operand values, including both zero;
the composites hold no counts of their own and are recomputed from the
already-aggregated operands (`PlayerStats.ops` etc. rebuild them on each
query). -/
theorem C2_composites_are_operand_sums :
    (∀ s : PlayerStats, s.ops.value = s.obp.value + s.sp.value) ∧
    (∀ s : PlayerStats, s.cops.value = s.cobp.value + s.csp.value) ∧
    (∀ s : PlayerStats, s.loops.value = s.loop.value + s.lsp.value) ∧
    (∀ s : PlayerStats, s.sops.value = s.sobp.value + s.ssp.value) ∧
    (∀ (o : OBP) (p : SP), (OPS.mk o p).value = o.value + p.value) ∧
    (∀ (o : OBP) (p : SP), (COPS.mk o p).value = o.value + p.value) ∧
    (∀ (o : OBP) (p : SP), (LOOPS.mk o p).value = o.value + p.value) ∧
    (∀ (o : OBP) (p : SP), (SOPS.mk o p).value = o.value + p.value) ∧
    OPS.value {} = 0 ∧ COPS.value {} = 0 ∧ LOOPS.value {} = 0 ∧ SOPS.value {} = 0 := by
  refine ⟨fun s => rfl, fun s => rfl, fun s => rfl, fun s => rfl,
    fun o p => rfl, fun o p => rfl, fun o p => rfl, fun o p => rfl, ?_, ?_, ?_, ?_⟩ <;>
    simp [OPS.value, COPS.value, LOOPS.value, SOPS.value, OBP.value, SP.value,
      OBP.denominator]

/-- C3: in both generations, the mapping returned by `get_player_to_stats`
always contains an entry keyed by the synthetic team player's reserved id
and an entry for every roster player present in the games; a player missing
from any individual calculator's mapping receives a fresh zero-valued
default record of the matching stat type instead of being absent. -/
theorem C3_player_to_stats_keys_and_defaults :
    (∀ (players : List Player) (c : CalculatorOutputs),
      (get_player_to_stats players c).lookup TEAM_PLAYER_ID =
        some (mkPlayerStats c TEAM_PLAYER_ID)) ∧
    (∀ (players : List Player) (c : CalculatorOutputs) (p : Player),
      p ∈ players →
      (get_player_to_stats players c).lookup p.id = some (mkPlayerStats c p.id)) ∧
    (∀ (c : CalculatorOutputs) (pid : String),
      (c.player_to_obp.lookup pid = none → (mkPlayerStats c pid).obp = {}) ∧
      (c.player_to_cobp.lookup pid = none → (mkPlayerStats c pid).cobp = {}) ∧
      (c.player_to_sobp.lookup pid = none → (mkPlayerStats c pid).sobp = {}) ∧
      (c.player_to_loop.lookup pid = none → (mkPlayerStats c pid).loop = {}) ∧
      (c.player_to_ba.lookup pid = none → (mkPlayerStats c pid).ba = {}) ∧
      (c.player_to_sp.lookup pid = none → (mkPlayerStats c pid).sp = {}) ∧
      (c.player_to_csp.lookup pid = none → (mkPlayerStats c pid).csp = {}) ∧
      (c.player_to_lsp.lookup pid = none → (mkPlayerStats c pid).lsp = {}) ∧
      (c.player_to_ssp.lookup pid = none → (mkPlayerStats c pid).ssp = {}) ∧
      (c.player_to_basic_stats.lookup pid = none → (mkPlayerStats c pid).basic = {}) ∧
      (c.player_to_runs.lookup pid = none → (mkPlayerStats c pid).runs = {})) ∧
    (∀ (players : List Player) (c : GenA.CalculatorOutputs),
      (GenA.get_player_to_stats players c).lookup TEAM_PLAYER_ID =
        some (GenA.mkPlayerStats c TEAM_PLAYER_ID)) ∧
    (∀ (players : List Player) (c : GenA.CalculatorOutputs) (p : Player),
      p ∈ players →
      (GenA.get_player_to_stats players c).lookup p.id =
        some (GenA.mkPlayerStats c p.id)) ∧
    (∀ (c : GenA.CalculatorOutputs) (pid : String),
      (c.player_to_obp.lookup pid = none → (GenA.mkPlayerStats c pid).obp = {}) ∧
      (c.player_to_cobp.lookup pid = none → (GenA.mkPlayerStats c pid).cobp = {}) ∧
      (c.player_to_sobp.lookup pid = none → (GenA.mkPlayerStats c pid).sobp = {}) ∧
      (c.player_to_ba.lookup pid = none → (GenA.mkPlayerStats c pid).ba = {}) ∧
      (c.player_to_sp.lookup pid = none → (GenA.mkPlayerStats c pid).sp = {}) ∧
      (c.player_to_ops.lookup pid = none → (GenA.mkPlayerStats c pid).ops = {}) ∧
      (c.player_to_cops.lookup pid = none → (GenA.mkPlayerStats c pid).cops = {})) := by
  refine ⟨fun players c => ?_, fun players c p hp => ?_, fun c pid => ?_,
    fun players c => ?_, fun players c p hp => ?_, fun c pid => ?_⟩
  · rw [get_player_to_stats, lookup_map_by_id]
    simp [build_team_player, TEAM_PLAYER_ID]
  · rw [get_player_to_stats, lookup_map_by_id]
    simp only [List.map_cons, List.mem_cons]
    rw [if_pos (Or.inr (List.mem_map_of_mem Player.id hp))]
  · refine ⟨fun h => ?_, fun h => ?_, fun h => ?_, fun h => ?_, fun h => ?_,
      fun h => ?_, fun h => ?_, fun h => ?_, fun h => ?_, fun h => ?_, fun h => ?_⟩ <;>
      simp [mkPlayerStats, getOr, h]
  · rw [GenA.get_player_to_stats, lookup_map_by_id]
    simp [GenA.as_team, build_team_player, TEAM_PLAYER_ID]
  · rw [GenA.get_player_to_stats, lookup_map_by_id]
    simp only [List.map_cons, List.mem_cons]
    rw [if_pos (Or.inr (List.mem_map_of_mem Player.id hp))]
  · refine ⟨fun h => ?_, fun h => ?_, fun h => ?_, fun h => ?_, fun h => ?_,
      fun h => ?_, fun h => ?_⟩ <;>
      simp [GenA.mkPlayerStats, getOr, h]

/-- Witness for C3: a one-player roster with no calculator output at all
(the zero-play case) still yields entries for the team player and the
roster player, built entirely from zero-valued defaults. -/
theorem C3_player_to_stats_keys_and_defaults_witness :
    (get_player_to_stats [{ id := "p1", name := "Player One" }] emptyCalcB).lookup
      TEAM_PLAYER_ID = some (mkPlayerStats emptyCalcB TEAM_PLAYER_ID) ∧
    (get_player_to_stats [{ id := "p1", name := "Player One" }] emptyCalcB).lookup
      "p1" = some (mkPlayerStats emptyCalcB "p1") ∧
    (mkPlayerStats emptyCalcB "p1").obp = {} ∧
    (GenA.get_player_to_stats [{ id := "p1", name := "Player One" }] emptyCalcA).lookup
      TEAM_PLAYER_ID = some (GenA.mkPlayerStats emptyCalcA TEAM_PLAYER_ID) ∧
    (GenA.get_player_to_stats [{ id := "p1", name := "Player One" }] emptyCalcA).lookup
      "p1" = some (GenA.mkPlayerStats emptyCalcA "p1") ∧
    (GenA.mkPlayerStats emptyCalcA "p1").cobp = {} :=
  ⟨C3_player_to_stats_keys_and_defaults.1 _ emptyCalcB,
   C3_player_to_stats_keys_and_defaults.2.1 _ emptyCalcB
     { id := "p1", name := "Player One" } (by simp),
   (C3_player_to_stats_keys_and_defaults.2.2.1 emptyCalcB "p1").1 rfl,
   C3_player_to_stats_keys_and_defaults.2.2.2.1 _ emptyCalcA,
   C3_player_to_stats_keys_and_defaults.2.2.2.2.1 _ emptyCalcA
     { id := "p1", name := "Player One" } (by simp),
   (C3_player_to_stats_keys_and_defaults.2.2.2.2.2 emptyCalcA "p1").2.1 rfl⟩

/-- C9: rendering the stats table in generation A mutates its input: after
`_display_stats` (and hence `display_game`) returns, the synthetic team
player's entry has been removed from the caller's mapping via `pop`, so the
mapping no longer satisfies the team-player-always-present invariant, while
every other player's entry is left unchanged. -/
theorem C9_display_stats_pops_team_entry :
    ∀ m : List (String × GenA.PlayerStats),
      (∃ s, m.lookup TEAM_PLAYER_ID = some s) →
      (GenA._display_stats m).lookup TEAM_PLAYER_ID = none ∧
      (GenA.display_game m).lookup TEAM_PLAYER_ID = none ∧
      ∀ k, k ≠ TEAM_PLAYER_ID →
        (GenA._display_stats m).lookup k = m.lookup k ∧
        (GenA.display_game m).lookup k = m.lookup k := by
  intro m _
  exact ⟨lookup_popKey_self m TEAM_PLAYER_ID, lookup_popKey_self m TEAM_PLAYER_ID,
    fun k hk => ⟨lookup_popKey_ne m TEAM_PLAYER_ID k hk,
      lookup_popKey_ne m TEAM_PLAYER_ID k hk⟩⟩

/-- Witness for C9 on a concrete mapping holding the team entry and one
roster entry. -/
theorem C9_display_stats_pops_team_entry_witness :
    (GenA._display_stats sampleMapA).lookup TEAM_PLAYER_ID = none ∧
    (GenA.display_game sampleMapA).lookup "p1" = sampleMapA.lookup "p1" :=
  ⟨(C9_display_stats_pops_team_entry sampleMapA ⟨GenA.defaultPlayerStats, rfl⟩).1,
   ((C9_display_stats_pops_team_entry sampleMapA ⟨GenA.defaultPlayerStats, rfl⟩).2.2
     "p1" (by decide)).2⟩

/-- C8: the generation-A entry point short-circuits on every absent
selection — no team or year chosen, game loading returning nothing (a
`None` or an empty season), or no game chosen — returning without computing
or rendering; and an `InvalidInput`/`ValueError` during load displays its
message inline inside `_load_games` and nothing further renders, without
crashing. -/
theorem C8_main_short_circuits :
    (∀ (year : Option Nat) lr gsel, GenA.main none year lr gsel = .aborted) ∧
    (∀ (team : Option String) lr gsel, GenA.main team none lr gsel = .aborted) ∧
    (∀ t y e gsel,
      GenA.main (some t) (some y) (.error e) gsel = .errorDisplayed e) ∧
    (∀ e, (GenA._load_games (.error e)).2 = some e ∧
      (GenA._load_games (.error e)).1 = none) ∧
    (∀ t y gsel, GenA.main (some t) (some y) (.ok []) gsel = .aborted) ∧
    (∀ t y gs, GenA.main (some t) (some y) (.ok gs) none = .aborted) := by
  refine ⟨fun year lr gsel => ?_, fun team lr gsel => ?_,
    fun t y e gsel => rfl, fun e => ⟨rfl, rfl⟩, fun t y gsel => rfl,
    fun t y gs => ?_⟩
  · rfl
  · cases team <;> rfl
  · cases gs <;> rfl

/-- C5: the fuzzy player lookup filters rows to the given team, matches the
target name against that team's candidate names by similarity, returns the
best match when its score is at least 50 (of 100), and otherwise fails with
an error reporting the query name, team id, best candidate and score; a
best score of 49 fails and a best score of 50 succeeds.  (The similarity
scorer is the third-party matcher, an explicit input here; the claim's
premise that a best candidate exists is the `extractOne = some` hypothesis.) -/
theorem C5_fuzzy_lookup_threshold :
    (∀ (scorer : String → String → Nat) (df : List PlayerSeasonalStats)
       (player_name team_id best : String) (score : Nat),
      extractOne (scorer player_name)
          ((df.filter fun r => r.baseball_reference_team_id == team_id).map
            PlayerSeasonalStats.player_name) = some (best, score) →
      (50 ≤ score →
        lookup_player scorer df player_name team_id =
          .ok ((df.filter fun r => r.baseball_reference_team_id == team_id).filter
            fun r => r.player_name == best)) ∧
      (score < 50 →
        lookup_player scorer df player_name team_id =
          .error (.valueError (fuzzyErrorMessage player_name team_id best score)))) ∧
    lookup_player (fun _ _ => 49) sampleDf "Jackson Frazier" "NYY" =
      .error (.valueError (fuzzyErrorMessage "Jackson Frazier" "NYY" "Clint Frazier" 49)) ∧
    lookup_player (fun _ _ => 50) sampleDf "Jackson Frazier" "NYY" = .ok [sampleRow] := by
  refine ⟨fun scorer df player_name team_id best score hext => ⟨fun hs => ?_, fun hs => ?_⟩,
    by rfl, by rfl⟩
  · simp only [lookup_player, fuzzy_lookup, hext]
    rw [if_pos hs]
  · simp only [lookup_player, fuzzy_lookup, hext]
    rw [if_neg (by omega)]

/-- Witness for C5 at the fixed candidate set, discharging the
best-candidate hypothesis concretely at score 50. -/
theorem C5_fuzzy_lookup_threshold_witness :
    lookup_player (fun _ _ => 50) sampleDf "Jackson Frazier" "NYY" =
      .ok ((sampleDf.filter fun r => r.baseball_reference_team_id == "NYY").filter
        fun r => r.player_name == "Clint Frazier") :=
  (C5_fuzzy_lookup_threshold.1 (fun _ _ => 50) sampleDf "Jackson Frazier" "NYY"
    "Clint Frazier" 50 rfl).1 (by decide)

/-- C6: reading the seasonal-stats cache is read-through: if the cache file
at `<data-dir>/<year>/baseball_reference.csv` exists, its rows are returned
as-is with no fetch; if not, a scrape-and-write for that year precedes the
read; hence a second read for a year whose cache file already exists
performs no fetch and returns the unchanged cached rows. -/
theorem C6_cache_read_through :
    (∀ fetch fs year rows,
      fs.files.lookup (_get_players_seasonal_stats_data_path year) = some rows →
      get_seasonal_players_stats_body fetch fs year = (rows, fs, ⟨0, 1⟩)) ∧
    (∀ fetch fs year,
      fs.files.lookup (_get_players_seasonal_stats_data_path year) = none →
      get_seasonal_players_stats_body fetch fs year =
        (fetch year, dump_players_seasonal_stats fetch fs year, ⟨1, 1⟩)) ∧
    (∀ fetch fs year,
      get_seasonal_players_stats_body fetch
          (get_seasonal_players_stats_body fetch fs year).2.1 year =
        ((get_seasonal_players_stats_body fetch fs year).1,
         (get_seasonal_players_stats_body fetch fs year).2.1, ⟨0, 1⟩)) := by
  refine ⟨fun fetch fs year rows h => ?_, fun fetch fs year h => ?_,
    fun fetch fs year => ?_⟩
  · simp [get_seasonal_players_stats_body, h]
  · simp [get_seasonal_players_stats_body, h, dump_players_seasonal_stats,
      FS.write, List.lookup]
  · rcases h : fs.files.lookup (_get_players_seasonal_stats_data_path year) with
      _ | rows
    · simp [get_seasonal_players_stats_body, h, dump_players_seasonal_stats,
        FS.write, List.lookup]
    · simp [get_seasonal_players_stats_body, h]

/-- Witness for C6: a filesystem already holding the 2022 cache file is
read with no fetch; an empty filesystem triggers exactly one fetch-and-write. -/
theorem C6_cache_read_through_witness :
    get_seasonal_players_stats_body (fun _ => [sampleRow])
        ⟨[("data/2022/baseball_reference.csv", [sampleRow])]⟩ 2022 =
      ([sampleRow], ⟨[("data/2022/baseball_reference.csv", [sampleRow])]⟩, ⟨0, 1⟩) ∧
    get_seasonal_players_stats_body (fun _ => [sampleRow]) ⟨[]⟩ 2022 =
      ([sampleRow],
       dump_players_seasonal_stats (fun _ => [sampleRow]) ⟨[]⟩ 2022, ⟨1, 1⟩) :=
  ⟨C6_cache_read_through.1 (fun _ => [sampleRow])
      ⟨[("data/2022/baseball_reference.csv", [sampleRow])]⟩ 2022 [sampleRow] (by rfl),
   C6_cache_read_through.2.1 (fun _ => [sampleRow]) ⟨[]⟩ 2022 (by rfl)⟩

/-- C10: within one process, `get_seasonal_players_stats` is memoized per
year by `@lru_cache(maxsize=None)`: every call after the first with the
same year returns the identical previously computed result with no cache
file read and no fetch, even if the on-disk cache file has since been
modified or deleted (the second call runs against an arbitrary filesystem
`fs2`). -/
theorem C10_memoized_per_year :
    (∀ fetch memo fs year rows,
      memo.table.lookup year = some rows →
      get_seasonal_players_stats fetch memo fs year = (rows, memo, fs, ⟨0, 0⟩)) ∧
    (∀ fetch memo fs fs2 year,
      get_seasonal_players_stats fetch
          (get_seasonal_players_stats fetch memo fs year).2.1 fs2 year =
        ((get_seasonal_players_stats fetch memo fs year).1,
         (get_seasonal_players_stats fetch memo fs year).2.1, fs2, ⟨0, 0⟩)) := by
  refine ⟨fun fetch memo fs year rows h => ?_, fun fetch memo fs fs2 year => ?_⟩
  · simp [get_seasonal_players_stats, h]
  · rcases h : memo.table.lookup year with _ | rows
    · simp [get_seasonal_players_stats, h, List.lookup]
    · simp [get_seasonal_players_stats, h]

/-- Witness for C10: a memo already holding 2022 answers from the memo with
no effects, on any filesystem (here: an empty one). -/
theorem C10_memoized_per_year_witness :
    get_seasonal_players_stats (fun _ => []) ⟨[(2022, [sampleRow])]⟩ ⟨[]⟩ 2022 =
      ([sampleRow], ⟨[(2022, [sampleRow])]⟩, ⟨[]⟩, ⟨0, 0⟩) :=
  C10_memoized_per_year.1 (fun _ => []) ⟨[(2022, [sampleRow])]⟩ ⟨[]⟩ 2022
    [sampleRow] (by rfl)

/-- C4: generation B's per-game breakdown (`get_player_to_game_stat_df`)
raises `AttributeError` on every input — its `players` list is built
without unpacking the roster (line 135), so the id-keyed dict comprehension
hits the roster list itself — instead of excluding zero-at-bat players and
the team player as specified; generation A's per-inning breakdown does
exclude the synthetic team player and every player with zero at-bats, and
both generations' flat tables keep one row per mapping entry (team row and
zero-at-bat players included). -/
theorem C4_breakdown_crash_exclusions_and_retention :
    (∀ roster : List Player,
      get_player_to_game_stat_df roster =
        .error "AttributeError: list object has no attribute id") ∧
    (∀ (games : List GenA.Game) (players : List Player)
       (stats : List (String × GenA.PlayerStats)),
      TEAM_PLAYER_ID ∉ players.map Player.id →
      ∀ row ∈ GenA._get_inning_to_player_cobp games players stats,
        ∀ cell ∈ row.2,
          cell.1 ≠ TEAM_PLAYER_ID ∧
          (getOr stats cell.1 GenA.defaultPlayerStats).at_bats ≠ 0) ∧
    (∀ players player_to_stats team year,
      (get_player_to_stats_df players player_to_stats team year).length =
        player_to_stats.length) ∧
    (∀ players player_to_stats,
      (GenA.get_player_to_stats_df players player_to_stats).length =
        player_to_stats.length) := by
  refine ⟨fun roster => rfl, fun games players stats hT row hrow cell hcell => ?_,
    fun players player_to_stats team year => ?_, fun players player_to_stats => ?_⟩
  · rw [GenA._get_inning_to_player_cobp] at hrow
    by_cases hinc : (GenA.includedEntries players stats).isEmpty
    · rw [if_pos hinc] at hrow
      simp at hrow
    · rw [if_neg hinc] at hrow
      obtain ⟨g, _, hrow'⟩ := List.mem_flatMap.mp hrow
      obtain ⟨inning, _, hre⟩ := List.mem_map.mp hrow'
      rw [← hre] at hcell
      obtain ⟨e, he, hce⟩ := List.mem_map.mp hcell
      obtain ⟨hemem, hcond⟩ := List.mem_filter.mp he
      rw [GenA._get_all_players_id_to_player] at hemem
      simp only [if_neg (Bool.false_ne_true)] at hemem
      obtain ⟨p, hp, hpe⟩ := List.mem_map.mp hemem
      have hc1 : cell.1 = p.id := by rw [← hce, ← hpe]
      constructor
      · rw [hc1]
        exact fun hteq => hT (hteq ▸ List.mem_map_of_mem Player.id hp)
      · rw [hc1]
        have := hpe ▸ hcond
        simpa [bne_iff_ne] using this
  · simp [get_player_to_stats_df]
  · simp [GenA.get_player_to_stats_df]

/-- Witness for C4 at a concrete one-game, two-player scenario: the player
with one at-bat is a column of the first inning row, and the theorem shows
that column belongs to no-team, nonzero-at-bats. -/
theorem C4_breakdown_crash_exclusions_and_retention_witness :
    ("p1" : String) ≠ TEAM_PLAYER_ID ∧
    (getOr [("p1", oneABStats), ("p0", GenA.defaultPlayerStats)] "p1"
      GenA.defaultPlayerStats).at_bats ≠ 0 :=
  C4_breakdown_crash_exclusions_and_retention.2.1 [⟨"g1"⟩]
    [{ id := "p1", name := "P One" }]
    [("p1", oneABStats), ("p0", GenA.defaultPlayerStats)]
    (by decide)
    (GenA.get_games_inning_id ⟨"g1"⟩ 1, [("p1", none)])
    (by decide)
    ("p1", none)
    (by decide)

/-- C7: the generation-B flat table has exactly the 29 specified columns in
order with one row per player in the mapping and the Player column holding
the display name — but the ID column also holds the display name
(`cobp/stats/aggregated.py:102` appends `player.name`), not the player's
id: for the roster player with id "abramcj01" and name "CJ Abrams", the ID
cell evaluates to "CJ Abrams". -/
theorem C7_flat_table_columns_and_id_cell :
    (∀ (team : Team) (year : Nat) (p : Player) (stats : PlayerStats),
      (rowCells team year p stats).lookup "Player" = some (.str p.name) ∧
      (rowCells team year p stats).lookup "ID" = some (.str p.name)) ∧
    (∀ players player_to_stats team year,
      ∀ row ∈ get_player_to_stats_df players player_to_stats team year,
        dfColumns row =
          ["Team", "Year", "Player", "ID", "G", "AB", "H", "W", "HBP", "SF",
           "S", "D", "T", "HR", "R", "RBI", "OBP", "COBP", "LOOP", "SOBP",
           "BA", "SP", "CSP", "LSP", "SSP", "OPS", "COPS", "LOOPS", "SOPS"]) ∧
    (∀ players player_to_stats team year,
      (get_player_to_stats_df players player_to_stats team year).length =
        player_to_stats.length) ∧
    ((get_player_to_stats_df abramsRoster abramsStats teamWAS 2022).map
        (fun row => row.lookup "ID") =
      [some (.str "Team"), some (.str "CJ Abrams")]) ∧
    Cell.str "CJ Abrams" ≠ Cell.str "abramcj01" := by
  refine ⟨fun team year p stats => ⟨rfl, rfl⟩,
    fun players player_to_stats team year row hrow => ?_,
    fun players player_to_stats team year => ?_, by rfl, by decide⟩
  · simp only [get_player_to_stats_df] at hrow
    obtain ⟨e, _, hre⟩ := List.mem_map.mp hrow
    rw [← hre]
    rfl
  · simp [get_player_to_stats_df]

/-- Witness for C7 reading the column labels off the concrete table's team
row. -/
theorem C7_flat_table_columns_and_id_cell_witness :
    dfColumns (rowCells teamWAS 2022 build_team_player
        (mkPlayerStats emptyCalcB TEAM_PLAYER_ID)) =
      ["Team", "Year", "Player", "ID", "G", "AB", "H", "W", "HBP", "SF",
       "S", "D", "T", "HR", "R", "RBI", "OBP", "COBP", "LOOP", "SOBP",
       "BA", "SP", "CSP", "LSP", "SSP", "OPS", "COPS", "LOOPS", "SOPS"] :=
  C7_flat_table_columns_and_id_cell.2.1 abramsRoster abramsStats teamWAS 2022
    (rowCells teamWAS 2022 build_team_player
      (mkPlayerStats emptyCalcB TEAM_PLAYER_ID))
    (by
      simp [get_player_to_stats_df, abramsStats, get_player_to_stats,
        abramsRoster, List.lookup]
      exact Or.inl rfl)

end Cobp
